import Mathlib

/-!
Verification of the order-lifecycle engine of the food-order backend
(`src/food_order_backend/api/models.py` and `serializers.py`).

The Django models become Lean structures holding the columns the engine
reads or writes; database tables become lists of rows inside a `DB`
record.  The operations `Order.recalculate_totals`,
`PlaceOrderSerializer.create` (here `placeOrder`, together with the
request validation performed by the serializer fields) and
`UpdateOrderStatusSerializer.update` (here `updateOrderStatus`) are
translated statement by statement.  Money is in integer cents
throughout, as in the source.  The random order number produced by
`get_random_string(10).upper()` is passed in as an explicit argument,
and wall-clock time as a natural number, so that every definition is an
executable function.

The tax line `tax = int(round(subtotal * 0.08))` goes through a Python
float (IEEE-754 binary64).  That arithmetic is embedded exactly for the
inputs the program can reach: `0.08` is replaced by the binary64 value
nearest to it, `5764607523034235 / 2 ^ 56`; the product with the
(exactly representable, below `2 ^ 53`) subtotal is rounded to the
nearest binary64 with ties to even, and Python `round` then rounds that
value to an integer with ties to even.
-/

namespace FoodOrder

/-- Smallest id not used in the list: Lean stand-in for the
auto-increment primary key the database assigns to a new row. -/
def freshId (l : List ℕ) : ℕ := l.foldr max 0 + 1

theorem le_foldr_max (l : List ℕ) : ∀ x ∈ l, x ≤ l.foldr max 0 := by
  intro x hx
  induction l with
  | nil => cases hx
  | cons a t ih =>
    rcases List.mem_cons.mp hx with h | h
    · subst h; exact le_max_left _ _
    · exact le_trans (ih h) (le_max_right _ _)

theorem freshId_not_mem (l : List ℕ) : freshId l ∉ l := by
  intro hmem
  have h := le_foldr_max l _ hmem
  simp only [freshId] at h
  omega

/-- Round-to-nearest with ties to even of the nonnegative rational
`n / d`: the rounding used both by IEEE-754 default rounding and by
Python `round`. -/
def roundHalfEven (n d : ℕ) : ℕ :=
  let q := n / d
  let r := n % d
  if 2 * r < d then q
  else if d < 2 * r then q + 1
  else if q % 2 = 0 then q else q + 1

/-- Fuel-bounded floor of the base-2 logarithm; agrees with the
mathematical floor log2 whenever `n < 2 ^ fuel`.  Written with explicit
fuel so that the kernel can evaluate it on large numerals. -/
def log2fuel : ℕ → ℕ → ℕ
  | 0, _ => 0
  | fuel + 1, n => if n ≤ 1 then 0 else log2fuel fuel (n / 2) + 1

/-- Significand of the IEEE-754 binary64 value nearest to the literal
`0.08` of models.py line 118: that double is exactly `sig008 / 2 ^ 56`. -/
def sig008 : ℕ := 5764607523034235

/-- The binary64 product `subtotal * 0.08` computed by models.py line
118, returned as significand and exponent, value `m * 2 ^ e`.  Exact for
every subtotal below `2 ^ 53` (such subtotals are themselves exact
doubles; the product is then rounded to the nearest double, ties to
even). -/
def floatMul008 (s : ℕ) : ℕ × ℤ :=
  let n := s * sig008
  if n = 0 then (0, 0)
  else
    let e : ℤ := (log2fuel 200 n : ℤ) - 108
    if 0 ≤ e then (roundHalfEven n (2 ^ (56 + e.toNat)), e)
    else (roundHalfEven (n * 2 ^ (-e).toNat) (2 ^ 56), e)

/-- Python `int(round(x))` for a nonnegative double `x` given as
significand and exponent: `round` rounds half to even, `int` of the
resulting integer is the identity. -/
def intRoundFloat (p : ℕ × ℤ) : ℕ :=
  if 0 ≤ p.2 then p.1 * 2 ^ p.2.toNat else roundHalfEven p.1 (2 ^ (-p.2).toNat)

/-- models.py line 118: `tax = int(round(subtotal * 0.08))`. -/
def taxOfSubtotal (s : ℕ) : ℕ := intRoundFloat (floatMul008 s)

/-- `Order.Status` choices of models.py. -/
inductive OrderStatus where
  | PENDING
  | CONFIRMED
  | PREPARING
  | READY
  | OUT_FOR_DELIVERY
  | COMPLETED
  | CANCELLED
deriving DecidableEq, Repr

/-- `Payment.Method` choices of models.py. -/
inductive PayMethod where
  | CARD
  | CASH
  | WALLET
deriving DecidableEq, Repr

/-- `Payment.Status` choices of models.py. -/
inductive PayStatus where
  | INITIATED
  | AUTHORIZED
  | CAPTURED
  | FAILED
  | REFUNDED
deriving DecidableEq, Repr

/-- `Customer` row (models.py): email is the natural key, `is_active`
is the soft-delete flag.  Timestamp columns carry no engine logic and
are omitted. -/
structure Customer where
  id : ℕ
  email : String
  full_name : String
  phone : String
  default_address : String
  is_active : Bool
deriving DecidableEq, Repr

/-- `MenuItem` row (models.py); `category` is the nullable foreign key. -/
structure MenuItem where
  id : ℕ
  category : Option ℕ
  name : String
  description : String
  price_cents : ℕ
  image_url : String
  is_available : Bool
  is_active : Bool
deriving DecidableEq, Repr

/-- `Order` row (models.py).  `updated_at` is kept (as an abstract tick)
because the status-update path writes it explicitly; `created_at` is
omitted. -/
structure Order where
  id : ℕ
  order_number : String
  customer : ℕ
  status : OrderStatus
  special_instructions : String
  subtotal_cents : ℕ
  tax_cents : ℕ
  delivery_fee_cents : ℕ
  total_cents : ℕ
  eta : Option ℕ
  updated_at : ℕ
deriving DecidableEq, Repr

/-- `OrderItem` row (models.py): `order` and `menu_item` are the foreign
keys; the pair is unique per table constraint. -/
structure OrderItem where
  order : ℕ
  menu_item : ℕ
  quantity : ℕ
  unit_price_cents : ℕ
deriving DecidableEq, Repr

/-- `Payment` row (models.py), one-to-one with its order. -/
structure Payment where
  order : ℕ
  method : PayMethod
  amount_cents : ℕ
  currency : String
  status : PayStatus
  processor_ref : String
deriving DecidableEq, Repr

/-- `OrderStatusEvent` row (models.py): append-only audit entry.  The
source column `at` is a reserved word here, hence `at_time`. -/
structure OrderStatusEvent where
  order : ℕ
  from_status : OrderStatus
  to_status : OrderStatus
  at_time : ℕ
deriving DecidableEq, Repr

/-- The persistent store: one list of rows per table. -/
structure DB where
  customers : List Customer
  menu_items : List MenuItem
  orders : List Order
  order_items : List OrderItem
  payments : List Payment
  events : List OrderStatusEvent
deriving DecidableEq, Repr

/-- models.py lines 112-120, `Order.recalculate_totals`: recompute
subtotal, tax and total from the order's line items (passed in as the
result of the `self.items.all()` query). -/
def Order.recalculate_totals (o : Order) (items : List OrderItem) : Order :=
  let subtotal := (items.map (fun i => i.quantity * i.unit_price_cents)).sum
  let tax := taxOfSubtotal subtotal
  { o with
    subtotal_cents := subtotal
    tax_cents := tax
    total_cents := subtotal + tax + o.delivery_fee_cents }

/-- models.py lines 123-127, `Order.mark_status`.  The membership test
`new_status not in Order.Status.values` cannot fire here because the
argument already has the enumerated type (upstream, the serializer's
`ChoiceField` rejects strings outside the choices). -/
def Order.mark_status (o : Order) (new_status : OrderStatus) : Order :=
  { o with status := new_status }

/-! ## Serializer layer (serializers.py) -/

/-- Python `str.strip()`, applied by every REST-framework `CharField`
(`trim_whitespace` defaults to true): drop leading and trailing
whitespace. -/
def pyStrip (s : String) : String :=
  ⟨(((s.data.dropWhile Char.isWhitespace).reverse.dropWhile Char.isWhitespace).reverse)⟩

/-- `d.get(k)` on the customer dict, modelled as an association list. -/
def dictGet (cd : List (String × String)) (k : String) : Option String :=
  (cd.find? (fun p => p.1 == k)).map (fun p => p.2)

/-- `d.get(k, "")` on the customer dict. -/
def dictGetD (cd : List (String × String)) (k : String) : String :=
  (dictGet cd k).getD ""

/-- The customer dict after `DictField(child=CharField())` validation:
each value stripped of surrounding whitespace. -/
def trimDict (cd : List (String × String)) : List (String × String) :=
  cd.map (fun p => (p.1, pyStrip p.2))

/-- serializers.py lines 138 and 143-148: the `customer` field is a
nonempty dict of nonblank strings (`DictField(child=CharField(),
allow_empty=False)`; `CharField` rejects blank values), and
`validate_customer` additionally requires truthy `email` and
`full_name`.  Returns the validated (stripped) dict. -/
def validateCustomer (cd : List (String × String)) :
    Option (List (String × String)) :=
  if cd.isEmpty then none
  else
    let cdV := trimDict cd
    if cdV.any (fun p => p.2 == "") then none
    else if dictGetD cdV "email" == "" then none
    else if dictGetD cdV "full_name" == "" then none
    else some cdV

/-- One entry of the `items` request array: `{menu_item_id, quantity}`. -/
structure LineReq where
  menu_item_id : ℕ
  quantity : ℕ
deriving DecidableEq, Repr

/-- A validated line: `OrderItemCreateSerializer.to_internal_value`
output, with the menu item's current price attached as the
`unit_price_cents` snapshot (serializers.py lines 119-124). -/
structure VLine where
  menu_item : ℕ
  quantity : ℕ
  unit_price_cents : ℕ
deriving DecidableEq, Repr

/-- serializers.py lines 110-124, `OrderItemCreateSerializer`:
`menu_item_id` must reference a row of
`MenuItem.objects.filter(is_active=True, is_available=True)` and the
quantity must lie in `[1, 100]`. -/
def validateLine (db : DB) (l : LineReq) : Option VLine :=
  match db.menu_items.find?
      (fun m => m.id == l.menu_item_id && m.is_active && m.is_available) with
  | none => none
  | some m =>
    if 1 ≤ l.quantity ∧ l.quantity ≤ 100 then
      some { menu_item := m.id, quantity := l.quantity, unit_price_cents := m.price_cents }
    else none

/-- `OrderItemCreateSerializer(many=True)` run over the request array.
Note that `many=True` keeps the REST-framework default
`allow_empty=True`, so the empty list validates to the empty list. -/
def validateItems (db : DB) (ls : List LineReq) : Option (List VLine) :=
  ls.mapM (validateLine db)

/-- serializers.py lines 168-177: the three `if` statements run on an
existing customer — overwrite the full name when the supplied one is
truthy and differs, and the phone / address when the key is present and
the supplied value differs. -/
def mergeCustomer (c0 : Customer) (cd : List (String × String)) : Customer :=
  let c1 :=
    if dictGetD cd "full_name" ≠ "" ∧ c0.full_name ≠ dictGetD cd "full_name" then
      { c0 with full_name := dictGetD cd "full_name" } else c0
  let c2 :=
    if (dictGet cd "phone").isSome ∧ c1.phone ≠ dictGetD cd "phone" then
      { c1 with phone := dictGetD cd "phone" } else c1
  if (dictGet cd "address").isSome ∧ c2.default_address ≠ dictGetD cd "address" then
    { c2 with default_address := dictGetD cd "address" } else c2

/-- serializers.py lines 159-177: resolve or create the `Customer` by
exact email match (`get_or_create`), then apply the overwrite rules.
Returns the store and the id of the resolved customer.  This runs
before (and outside) the `transaction.atomic()` block. -/
def upsertCustomer (db : DB) (cd : List (String × String)) : DB × ℕ :=
  match db.customers.find? (fun c => c.email == dictGetD cd "email") with
  | none =>
    let cid := freshId (db.customers.map (fun c => c.id))
    let c : Customer :=
      { id := cid
        email := dictGetD cd "email"
        full_name := dictGetD cd "full_name"
        phone := dictGetD cd "phone"
        default_address := dictGetD cd "address"
        is_active := true }
    ({ db with customers := db.customers ++ [c] }, cid)
  | some c0 =>
    ({ db with
        customers :=
          db.customers.map (fun c => if c.id = c0.id then mergeCustomer c0 cd else c) },
      c0.id)

/-- Errors a `placeOrder` call can surface: a REST-framework
`ValidationError` from `is_valid`, or a database `IntegrityError` from
a violated unique constraint inside the transaction. -/
inductive PlaceErr where
  | validation
  | integrity
deriving DecidableEq, Repr

/-- serializers.py lines 128-205: field validation of
`PlaceOrderSerializer` followed by its `create`.  `gen` is the string
produced by `get_random_string(10).upper()` and `now` the current
clock tick.  The customer upsert runs first; the `transaction.atomic()`
block then creates the order, its items, the payment stub and the
initial `PENDING -> PENDING` event, or rolls all of them (and nothing
else) back on an `IntegrityError` — a colliding `order_number`, or a
repeated menu item violating `unique_together(order, menu_item)`.
Returns the resulting store and the created order (the value `create`
returns) or the error. -/
def placeOrder (db : DB) (cd : List (String × String)) (items : List LineReq)
    (special : String) (fee : ℕ) (gen : String) (now : ℕ) :
    DB × Except PlaceErr Order :=
  match validateCustomer cd, validateItems db items with
  | some cdV, some vlines =>
    let up := upsertCustomer db cdV
    let db1 := up.1
    let cid := up.2
    if db1.orders.any (fun o => o.order_number == gen) then
      (db1, Except.error PlaceErr.integrity)
    else if ¬ (vlines.map (fun v => v.menu_item)).Nodup then
      (db1, Except.error PlaceErr.integrity)
    else
      let oid := freshId (db1.orders.map (fun o => o.id))
      let order0 : Order :=
        { id := oid
          order_number := gen
          customer := cid
          status := OrderStatus.PENDING
          special_instructions := pyStrip special
          subtotal_cents := 0
          tax_cents := 0
          delivery_fee_cents := fee
          total_cents := 0
          eta := none
          updated_at := now }
      let oitems := vlines.map (fun v =>
        ({ order := oid, menu_item := v.menu_item, quantity := v.quantity,
           unit_price_cents := v.unit_price_cents } : OrderItem))
      let order1 :=
        order0.recalculate_totals
          ((db1.order_items ++ oitems).filter (fun it => it.order == oid))
      let pay : Payment :=
        { order := oid, method := PayMethod.CARD, amount_cents := order1.total_cents,
          currency := "USD", status := PayStatus.INITIATED, processor_ref := "" }
      let ev : OrderStatusEvent :=
        { order := oid, from_status := OrderStatus.PENDING,
          to_status := OrderStatus.PENDING, at_time := now }
      ({ db1 with
          orders := order1 :: db1.orders
          order_items := db1.order_items ++ oitems
          payments := pay :: db1.payments
          events := ev :: db1.events }, Except.ok order1)
  | _, _ => (db, Except.error PlaceErr.validation)

/-- Errors a `transitionStatus` call can surface: the 404 of the view
when the order number is unknown, or a database error while inserting
the audit event. -/
inductive UpdErr where
  | notFound
  | dbError
deriving DecidableEq, Repr

/-- views.py lines 119-124 with serializers.py lines 214-222: look the
order up by number, then run `UpdateOrderStatusSerializer.update`.  On
an unchanged status the instance is returned untouched.  Otherwise the
status is set and saved (`update_fields=["status", "updated_at"]`) and
the audit event is inserted by a separate statement; the two writes are
not wrapped in a transaction, so `eventInsertFails` — a database
failure at the second statement — leaves the saved status behind with
no event. -/
def updateOrderStatus (db : DB) (order_number : String)
    (new_status : OrderStatus) (now : ℕ) (eventInsertFails : Bool) :
    DB × Except UpdErr Order :=
  match db.orders.find? (fun o => o.order_number == order_number) with
  | none => (db, Except.error UpdErr.notFound)
  | some o =>
    if new_status = o.status then (db, Except.ok o)
    else
      let o2 := { o.mark_status new_status with updated_at := now }
      let db1 :=
        { db with orders := db.orders.map (fun x => if x.id = o.id then o2 else x) }
      if eventInsertFails then (db1, Except.error UpdErr.dbError)
      else
        ({ db1 with
            events :=
              ({ order := o.id, from_status := o.status, to_status := new_status,
                 at_time := now } : OrderStatusEvent) :: db1.events },
          Except.ok o2)

/-- `order.recalculate_totals()` invoked on the stored order with id
`oid` and the result saved back, the way placeOrder uses it: the method
reads the order's line items (`self.items.all()`) and rewrites the
order row only. -/
def DB.recalcOrder (db : DB) (oid : ℕ) : DB :=
  { db with
    orders := db.orders.map (fun o =>
      if o.id = oid then
        o.recalculate_totals (db.order_items.filter (fun it => it.order == o.id))
      else o) }

/-! ## Structural lemmas -/

theorem upsertCustomer_orders (db : DB) (cd : List (String × String)) :
    ((upsertCustomer db cd).1).orders = db.orders := by
  unfold upsertCustomer
  split <;> rfl

theorem upsertCustomer_order_items (db : DB) (cd : List (String × String)) :
    ((upsertCustomer db cd).1).order_items = db.order_items := by
  unfold upsertCustomer
  split <;> rfl

theorem upsertCustomer_payments (db : DB) (cd : List (String × String)) :
    ((upsertCustomer db cd).1).payments = db.payments := by
  unfold upsertCustomer
  split <;> rfl

theorem upsertCustomer_events (db : DB) (cd : List (String × String)) :
    ((upsertCustomer db cd).1).events = db.events := by
  unfold upsertCustomer
  split <;> rfl

theorem validateCustomer_eq_trim (cd cdV : List (String × String))
    (h : validateCustomer cd = some cdV) : cdV = trimDict cd := by
  unfold validateCustomer at h
  simp only [] at h
  split at h
  · exact absurd h (by simp)
  · split at h
    · exact absurd h (by simp)
    · split at h
      · exact absurd h (by simp)
      · split at h
        · exact absurd h (by simp)
        · exact (Option.some.injEq _ _ ▸ h).symm

theorem validateCustomer_no_blank (cd cdV : List (String × String))
    (h : validateCustomer cd = some cdV) :
    ∀ p ∈ cdV, p.2 ≠ "" := by
  unfold validateCustomer at h
  simp only [] at h
  split at h
  · exact absurd h (by simp)
  · split at h
    · exact absurd h (by simp)
    · rename_i hblank
      intro p hp hpe
      obtain rfl : cdV = trimDict cd := by
        split at h
        · exact absurd h (by simp)
        · split at h
          · exact absurd h (by simp)
          · exact (Option.some.injEq _ _ ▸ h).symm
      exact hblank (List.any_eq_true.mpr ⟨p, hp, by simp [hpe]⟩)

/-- What a successful `placeOrder` guarantees structurally: the
returned order carries the generated number, it is pushed onto the
orders table, and no stored order already carried that number. -/
theorem placeOrder_ok (db : DB) (cd : List (String × String))
    (items : List LineReq) (special : String) (fee : ℕ) (gen : String)
    (now : ℕ) (db' : DB) (o : Order)
    (h : placeOrder db cd items special fee gen now = (db', Except.ok o)) :
    o.order_number = gen ∧ db'.orders = o :: db.orders ∧
      ∀ x ∈ db.orders, x.order_number ≠ gen := by
  unfold placeOrder at h
  split at h
  · rename_i cdV vlines hc hi
    simp only [] at h
    split at h
    · exact absurd (congrArg Prod.snd h) (by simp)
    · split at h
      · exact absurd (congrArg Prod.snd h) (by simp)
      · rename_i hcol hdup
        have hdb : db' = _ := (congrArg Prod.fst h).symm
        have ho : Except.ok _ = Except.ok o := congrArg Prod.snd h
        rw [Except.ok.injEq] at ho
        constructor
        · rw [← ho]; rfl
        · constructor
          · rw [hdb, ← ho]
            simp [upsertCustomer_orders]
          · intro x hx hxn
            rw [upsertCustomer_orders] at hcol
            exact hcol (List.any_eq_true.mpr ⟨x, hx, by simp [hxn]⟩)
  · exact absurd (congrArg Prod.snd h) (by simp)

/-! ## Fixtures: small concrete stores used to instantiate the claims -/

/-- An available, active menu item priced 1200 cents. -/
def mi1 : MenuItem :=
  { id := 1, category := some 1, name := "Margherita", description := "",
    price_cents := 1200, image_url := "", is_available := true, is_active := true }

/-- A store holding only the menu item. -/
def dbMenu : DB :=
  { customers := [], menu_items := [mi1], orders := [], order_items := [],
    payments := [], events := [] }

/-- A valid customer payload. -/
def cdAlice : List (String × String) :=
  [("email", "alice@example.com"), ("full_name", "Alice")]

/-- One line: three units of menu item 1. -/
def linesC1 : List LineReq := [{ menu_item_id := 1, quantity := 3 }]

/-- Store after successfully placing that order with fee 200. -/
def dbC1 : DB := (placeOrder dbMenu cdAlice linesC1 "" 200 "AAAAAAAAAA" 0).1

/-- The order that call returns. -/
def oC1 : Order :=
  { id := 1, order_number := "AAAAAAAAAA", customer := 1,
    status := OrderStatus.PENDING, special_instructions := "",
    subtotal_cents := 3600, tax_cents := 288, delivery_fee_cents := 200,
    total_cents := 4088, eta := none, updated_at := 0 }

/-! ## The claims -/

/-- C1: for every order, immediately after placeOrder and after any
call to recalculateTotals, `total_cents = subtotal_cents + tax_cents +
delivery_fee_cents` and `subtotal_cents` equals the sum over line items
of quantity times unit price. -/
theorem claim_C1 :
    (∀ (o : Order) (items : List OrderItem),
      (o.recalculate_totals items).total_cents =
          (o.recalculate_totals items).subtotal_cents +
            (o.recalculate_totals items).tax_cents +
            (o.recalculate_totals items).delivery_fee_cents ∧
      (o.recalculate_totals items).subtotal_cents =
          ((items.map (fun i => i.quantity * i.unit_price_cents)).sum)) ∧
    (∀ (db : DB) (cd : List (String × String)) (items : List LineReq)
        (special : String) (fee : ℕ) (gen : String) (now : ℕ)
        (db' : DB) (o : Order),
      placeOrder db cd items special fee gen now = (db', Except.ok o) →
      o.total_cents = o.subtotal_cents + o.tax_cents + o.delivery_fee_cents ∧
      o.subtotal_cents =
          (((db'.order_items.filter (fun it => it.order == o.id)).map
              (fun i => i.quantity * i.unit_price_cents)).sum)) := by
  constructor
  · intro o items
    exact ⟨rfl, rfl⟩
  · intro db cd items special fee gen now db' o h
    unfold placeOrder at h
    split at h
    · rename_i cdV vlines hc hi
      simp only [] at h
      split at h
      · exact absurd (congrArg Prod.snd h) (by simp)
      · split at h
        · exact absurd (congrArg Prod.snd h) (by simp)
        · have hdb : _ = db' := congrArg Prod.fst h
          have ho : Except.ok _ = Except.ok o := congrArg Prod.snd h
          rw [Except.ok.injEq] at ho
          rw [← hdb, ← ho]
          exact ⟨rfl, rfl⟩
    · exact absurd (congrArg Prod.snd h) (by simp)

/-- C1 witness: placing three units of the 1200-cent item with a
200-cent fee in the empty store satisfies the totals invariant. -/
theorem claim_C1_witness :
    oC1.total_cents = oC1.subtotal_cents + oC1.tax_cents + oC1.delivery_fee_cents ∧
    oC1.subtotal_cents =
        (((dbC1.order_items.filter (fun it => it.order == oC1.id)).map
            (fun i => i.quantity * i.unit_price_cents)).sum) :=
  claim_C1.2 dbMenu cdAlice linesC1 "" 200 "AAAAAAAAAA" 0 dbC1 oC1 (by rfl)

/-- Base order for the C2 scenario: fee 200, totals not yet computed. -/
def oC2base : Order :=
  { id := 1, order_number := "FFFFFFFFFF", customer := 1,
    status := OrderStatus.PENDING, special_instructions := "",
    subtotal_cents := 0, tax_cents := 0, delivery_fee_cents := 200,
    total_cents := 0, eta := none, updated_at := 0 }

/-- The single line of the C2 scenario: quantity 3 at 1200 cents. -/
def itemsC2 : List OrderItem :=
  [{ order := 1, menu_item := 1, quantity := 3, unit_price_cents := 1200 }]

/-- C2: recalculateTotals computes `tax_cents = round(subtotal_cents *
0.08)` through a floating-point intermediate cast to integer cents
(`taxOfSubtotal` embeds exactly that binary64 pipeline); on a single
line with unit price 1200, quantity 3 and fee 200 it yields subtotal
3600, tax 288, total 4088. -/
theorem claim_C2 :
    (∀ (o : Order) (items : List OrderItem),
      (o.recalculate_totals items).tax_cents =
        taxOfSubtotal ((items.map (fun i => i.quantity * i.unit_price_cents)).sum)) ∧
    (oC2base.recalculate_totals itemsC2).subtotal_cents = 3600 ∧
    (oC2base.recalculate_totals itemsC2).tax_cents = 288 ∧
    (oC2base.recalculate_totals itemsC2).total_cents = 4088 :=
  ⟨fun _ _ => rfl, rfl, rfl, rfl⟩

/-- C8: recalculateTotals is idempotent — a second call on the same
line items reproduces the same subtotal, tax and total. -/
theorem claim_C8 (o : Order) (items : List OrderItem) :
    (Order.recalculate_totals (Order.recalculate_totals o items) items).subtotal_cents =
        (Order.recalculate_totals o items).subtotal_cents ∧
    (Order.recalculate_totals (Order.recalculate_totals o items) items).tax_cents =
        (Order.recalculate_totals o items).tax_cents ∧
    (Order.recalculate_totals (Order.recalculate_totals o items) items).total_cents =
        (Order.recalculate_totals o items).total_cents :=
  ⟨rfl, rfl, rfl⟩

/-- C10: recalculateTotals writes only the three computed money fields;
delivery fee, status, order number, special instructions, eta and the
line-item table are untouched. -/
theorem claim_C10 :
    (∀ (o : Order) (items : List OrderItem),
      (o.recalculate_totals items).delivery_fee_cents = o.delivery_fee_cents ∧
      (o.recalculate_totals items).status = o.status ∧
      (o.recalculate_totals items).order_number = o.order_number ∧
      (o.recalculate_totals items).special_instructions = o.special_instructions ∧
      (o.recalculate_totals items).eta = o.eta) ∧
    (∀ (db : DB) (oid : ℕ), (DB.recalcOrder db oid).order_items = db.order_items) :=
  ⟨fun _ _ => ⟨rfl, rfl, rfl, rfl, rfl⟩, fun _ _ => rfl⟩

/-- C7: transitioning to the status the order already has is a no-op:
the call returns the order unchanged and the store — events and
`updated_at` included — is exactly as before. -/
theorem claim_C7 (db : DB) (onum : String) (now : ℕ) (ef : Bool) (o : Order)
    (h : db.orders.find? (fun x => x.order_number == onum) = some o) :
    updateOrderStatus db onum o.status now ef = (db, Except.ok o) := by
  unfold updateOrderStatus
  rw [h]
  simp

/-- A confirmed order on file, for the C7 witness. -/
def o7 : Order :=
  { id := 1, order_number := "GGGGGGGGGG", customer := 1,
    status := OrderStatus.CONFIRMED, special_instructions := "",
    subtotal_cents := 1000, tax_cents := 80, delivery_fee_cents := 0,
    total_cents := 1080, eta := none, updated_at := 4 }

/-- Bob, the customer of the C7 order. -/
def cust7 : Customer :=
  { id := 1, email := "bob@example.com", full_name := "Bob", phone := "",
    default_address := "", is_active := true }

/-- The store holding that order and its customer. -/
def db7 : DB :=
  { customers := [cust7], menu_items := [], orders := [o7], order_items := [],
    payments := [], events := [] }

/-- C7 witness: re-sending CONFIRMED for the confirmed order changes
nothing. -/
theorem claim_C7_witness :
    updateOrderStatus db7 "GGGGGGGGGG" OrderStatus.CONFIRMED 9 false =
      (db7, Except.ok o7) :=
  claim_C7 db7 "GGGGGGGGGG" 9 false o7 (by rfl)

/-- The customer already on file in the collision fixture. -/
def custX : Customer :=
  { id := 1, email := "old@example.com", full_name := "Old", phone := "",
    default_address := "", is_active := true }

/-- An order already on file carrying the number the generator is about
to produce again. -/
def ordX : Order :=
  { id := 1, order_number := "AAAAAAAAAA", customer := 1,
    status := OrderStatus.PENDING, special_instructions := "",
    subtotal_cents := 0, tax_cents := 0, delivery_fee_cents := 0,
    total_cents := 0, eta := none, updated_at := 0 }

/-- Store in which the generated order number collides. -/
def dbColl : DB :=
  { customers := [custX], menu_items := [], orders := [ordX], order_items := [],
    payments := [], events := [] }

/-- A fresh customer payload, unknown to `dbColl`. -/
def cdNina : List (String × String) :=
  [("email", "nina@example.com"), ("full_name", "Nina")]

/-- C3 counterexample: a placeOrder call that fails inside the
transaction (order-number collision) has nevertheless created a new
Customer row — the upsert of serializers.py lines 159-177 runs before
`transaction.atomic()` and is not rolled back.  This refutes the part
of the claim asserting that a failed call leaves no created or modified
Customer row. -/
theorem claim_C3_counterexample :
    (placeOrder dbColl cdNina [] "" 0 "AAAAAAAAAA" 7).2 =
        Except.error PlaceErr.integrity ∧
    (placeOrder dbColl cdNina [] "" 0 "AAAAAAAAAA" 7).1.customers.length =
        dbColl.customers.length + 1 :=
  ⟨rfl, rfl⟩

/-- C3 amended: for every failing placeOrder call no Order, OrderItem,
Payment, or OrderStatusEvent row persists; the Customer upsert, which
precedes the transaction, may persist. -/
theorem claim_C3_amended (db : DB) (cd : List (String × String))
    (items : List LineReq) (special : String) (fee : ℕ) (gen : String)
    (now : ℕ) (db' : DB) (e : PlaceErr)
    (h : placeOrder db cd items special fee gen now = (db', Except.error e)) :
    db'.orders = db.orders ∧ db'.order_items = db.order_items ∧
      db'.payments = db.payments ∧ db'.events = db.events := by
  unfold placeOrder at h
  split at h
  · rename_i cdV vlines hc hi
    simp only [] at h
    split at h
    · have hdb : _ = db' := congrArg Prod.fst h
      rw [← hdb]
      exact ⟨upsertCustomer_orders db cdV, upsertCustomer_order_items db cdV,
        upsertCustomer_payments db cdV, upsertCustomer_events db cdV⟩
    · split at h
      · have hdb : _ = db' := congrArg Prod.fst h
        rw [← hdb]
        exact ⟨upsertCustomer_orders db cdV, upsertCustomer_order_items db cdV,
          upsertCustomer_payments db cdV, upsertCustomer_events db cdV⟩
      · exact absurd (congrArg Prod.snd h) (by simp)
  · have hdb : _ = db' := congrArg Prod.fst h
    rw [← hdb]
    exact ⟨rfl, rfl, rfl, rfl⟩

/-- C3 witness: at the collision input the failing call leaves the
order, item, payment and event tables untouched. -/
theorem claim_C3_witness :
    (placeOrder dbColl cdNina [] "" 0 "AAAAAAAAAA" 7).1.orders = dbColl.orders ∧
    (placeOrder dbColl cdNina [] "" 0 "AAAAAAAAAA" 7).1.order_items = dbColl.order_items ∧
    (placeOrder dbColl cdNina [] "" 0 "AAAAAAAAAA" 7).1.payments = dbColl.payments ∧
    (placeOrder dbColl cdNina [] "" 0 "AAAAAAAAAA" 7).1.events = dbColl.events :=
  claim_C3_amended dbColl cdNina [] "" 0 "AAAAAAAAAA" 7
    (placeOrder dbColl cdNina [] "" 0 "AAAAAAAAAA" 7).1 PlaceErr.integrity (by rfl)

/-- A pending order for the C4 failing input. -/
def o4 : Order :=
  { id := 1, order_number := "ZZZZZZZZZZ", customer := 1,
    status := OrderStatus.PENDING, special_instructions := "",
    subtotal_cents := 1000, tax_cents := 80, delivery_fee_cents := 0,
    total_cents := 1080, eta := none, updated_at := 0 }

/-- Its creation event. -/
def ev4 : OrderStatusEvent :=
  { order := 1, from_status := OrderStatus.PENDING,
    to_status := OrderStatus.PENDING, at_time := 0 }

/-- Store for the C4 failing input. -/
def db4 : DB :=
  { customers := [cust7], menu_items := [], orders := [o4], order_items := [],
    payments := [], events := [ev4] }

/-- C4: the status write and the event append are not one atomic unit.
serializers.py lines 219-221 run `instance.save(...)` and
`OrderStatusEvent.objects.create(...)` as two separate statements with
no enclosing transaction, so when the event insert fails the already
committed status write survives: the failed transition leaves the NEW
status and no new event, contradicting both-or-neither. -/
theorem claim_C4_demo :
    (updateOrderStatus db4 "ZZZZZZZZZZ" OrderStatus.CONFIRMED 5 true).2 =
        Except.error UpdErr.dbError ∧
    ((updateOrderStatus db4 "ZZZZZZZZZZ" OrderStatus.CONFIRMED 5 true).1.orders.map
        (fun o => o.status)) = [OrderStatus.CONFIRMED] ∧
    (updateOrderStatus db4 "ZZZZZZZZZZ" OrderStatus.CONFIRMED 5 true).1.events =
        db4.events :=
  ⟨rfl, rfl, rfl⟩

/-- C5 counterexample: the generator's first (and only) candidate
collides; the call surfaces a fatal IntegrityError immediately even
though unused candidates (here "BBBBBBBBBB") remained — there is no
retry loop in serializers.py lines 179-186, refuting the claimed
retry-on-collision behaviour. -/
theorem claim_C5_counterexample :
    (placeOrder dbColl cdNina [] "" 0 "AAAAAAAAAA" 7).2 =
        Except.error PlaceErr.integrity ∧
    dbColl.orders.all (fun o => !(o.order_number == "BBBBBBBBBB")) = true :=
  ⟨rfl, rfl⟩

/-- C5 amended: placeOrder draws one random 10-character uppercase
alphanumeric number per call and never retries; uniqueness is enforced
only by the database unique constraint, so a colliding candidate makes
the call fail at once with an IntegrityError; any two successfully
placed orders still carry distinct numbers. -/
theorem claim_C5_amended :
    (∀ (db : DB) (cd : List (String × String)) (items : List LineReq)
        (special : String) (fee : ℕ) (gen : String) (now : ℕ)
        (cdV : List (String × String)) (vl : List VLine),
      validateCustomer cd = some cdV → validateItems db items = some vl →
      (∃ x ∈ db.orders, x.order_number = gen) →
      (placeOrder db cd items special fee gen now).2 =
        Except.error PlaceErr.integrity) ∧
    (∀ (db db1 db2 : DB) (cd1 : List (String × String)) (items1 : List LineReq)
        (sp1 : String) (fee1 : ℕ) (gen1 : String) (now1 : ℕ) (o1 : Order)
        (cd2 : List (String × String)) (items2 : List LineReq)
        (sp2 : String) (fee2 : ℕ) (gen2 : String) (now2 : ℕ) (o2 : Order),
      placeOrder db cd1 items1 sp1 fee1 gen1 now1 = (db1, Except.ok o1) →
      placeOrder db1 cd2 items2 sp2 fee2 gen2 now2 = (db2, Except.ok o2) →
      o1.order_number ≠ o2.order_number) := by
  constructor
  · intro db cd items special fee gen now cdV vl hc hi hex
    obtain ⟨x, hx, hxn⟩ := hex
    have hany : ((upsertCustomer db cdV).1.orders.any
        (fun o => o.order_number == gen)) = true := by
      rw [upsertCustomer_orders]
      exact List.any_eq_true.mpr ⟨x, hx, by simp [hxn]⟩
    unfold placeOrder
    rw [hc, hi]
    simp only [hany]
    rw [if_pos trivial]
  · intro db db1 db2 cd1 items1 sp1 fee1 gen1 now1 o1
      cd2 items2 sp2 fee2 gen2 now2 o2 h1 h2
    obtain ⟨hn1, hdb1, _⟩ :=
      placeOrder_ok db cd1 items1 sp1 fee1 gen1 now1 db1 o1 h1
    obtain ⟨hn2, _, hfresh⟩ :=
      placeOrder_ok db1 cd2 items2 sp2 fee2 gen2 now2 db2 o2 h2
    have hmem : o1 ∈ db1.orders := by
      rw [hdb1]; exact List.mem_cons_self _ _
    have := hfresh o1 hmem
    rw [hn2]
    exact this

/-- Store after the first successful order of the C5 witness. -/
def db5a : DB := (placeOrder dbMenu cdAlice [] "" 0 "HHHHHHHHHH" 0).1

/-- The first order of the C5 witness. -/
def o5a : Order :=
  { id := 1, order_number := "HHHHHHHHHH", customer := 1,
    status := OrderStatus.PENDING, special_instructions := "",
    subtotal_cents := 0, tax_cents := 0, delivery_fee_cents := 0,
    total_cents := 0, eta := none, updated_at := 0 }

/-- The second order of the C5 witness. -/
def o5b : Order :=
  { id := 2, order_number := "IIIIIIIIII", customer := 1,
    status := OrderStatus.PENDING, special_instructions := "",
    subtotal_cents := 0, tax_cents := 0, delivery_fee_cents := 0,
    total_cents := 0, eta := none, updated_at := 0 }

/-- C5 witness: the collision instance fails with IntegrityError, and
two concrete successful calls in sequence yield distinct numbers. -/
theorem claim_C5_witness :
    (placeOrder dbColl cdNina [] "" 0 "AAAAAAAAAA" 7).2 =
        Except.error PlaceErr.integrity ∧
    o5a.order_number ≠ o5b.order_number :=
  ⟨claim_C5_amended.1 dbColl cdNina [] "" 0 "AAAAAAAAAA" 7 cdNina []
      (by rfl) (by rfl) ⟨ordX, by decide, rfl⟩,
    claim_C5_amended.2 dbMenu db5a
      (placeOrder db5a cdAlice [] "" 0 "IIIIIIIIII" 0).1
      cdAlice [] "" 0 "HHHHHHHHHH" 0 o5a cdAlice [] "" 0 "IIIIIIIIII" 0 o5b
      (by rfl) (by rfl)⟩

/-- The empty store. -/
def dbEmpty : DB :=
  { customers := [], menu_items := [], orders := [], order_items := [],
    payments := [], events := [] }

/-- A valid customer payload for the C6 inputs. -/
def cdEve : List (String × String) :=
  [("email", "eve@example.com"), ("full_name", "Eve")]

/-- The order an empty-item placeOrder call creates. -/
def o6 : Order :=
  { id := 1, order_number := "CCCCCCCCCC", customer := 1,
    status := OrderStatus.PENDING, special_instructions := "",
    subtotal_cents := 0, tax_cents := 0, delivery_fee_cents := 250,
    total_cents := 250, eta := none, updated_at := 3 }

/-- C6 counterexample: a placeOrder call with an empty line list does
NOT fail — `items = OrderItemCreateSerializer(many=True)` keeps the
REST-framework default `allow_empty=True` — and it creates order and
payment rows.  This refutes the claim that the empty list fails with
ValidationError and creates no rows. -/
theorem claim_C6_counterexample :
    (placeOrder dbEmpty cdEve [] "" 250 "CCCCCCCCCC" 3).2 = Except.ok o6 ∧
    (placeOrder dbEmpty cdEve [] "" 250 "CCCCCCCCCC" 3).1.orders.length = 1 ∧
    (placeOrder dbEmpty cdEve [] "" 250 "CCCCCCCCCC" 3).1.payments.length = 1 :=
  ⟨rfl, rfl, rfl⟩

/-- C6 amended: a placeOrder call with an empty line list but valid
customer data (and a fresh order number, in a store with sound item
foreign keys) succeeds, creating an order with zero line items,
subtotal 0, tax 0 and total equal to the delivery fee. -/
theorem claim_C6_amended (db : DB) (cd : List (String × String))
    (special : String) (fee : ℕ) (gen : String) (now : ℕ)
    (cdV : List (String × String))
    (hc : validateCustomer cd = some cdV)
    (hfk : ∀ it ∈ db.order_items, it.order ∈ db.orders.map (fun o => o.id))
    (hg : ∀ x ∈ db.orders, x.order_number ≠ gen) :
    ∃ db' o, placeOrder db cd [] special fee gen now = (db', Except.ok o) ∧
      o.subtotal_cents = 0 ∧ o.tax_cents = 0 ∧ o.total_cents = fee ∧
      db'.order_items = db.order_items ∧ db'.orders = o :: db.orders := by
  have hvi : validateItems db [] = some [] := rfl
  have hcol : ¬(((upsertCustomer db cdV).1.orders.any
      (fun o => o.order_number == gen)) = true) := by
    rw [upsertCustomer_orders]
    intro hx
    obtain ⟨x, hxm, hxe⟩ := List.any_eq_true.mp hx
    exact hg x hxm (by simpa using hxe)
  have hfilter : (db.order_items.filter
      (fun it => it.order == freshId (db.orders.map (fun o => o.id)))) = [] := by
    rw [List.filter_eq_nil_iff]
    intro it hit
    simp only [beq_iff_eq]
    intro heq
    exact freshId_not_mem _ (heq ▸ hfk it hit)
  have h0 : taxOfSubtotal 0 = 0 := rfl
  unfold placeOrder
  rw [hc, hvi]
  simp only []
  rw [if_neg hcol, if_neg (by simp)]
  refine ⟨_, _, rfl, ?_, ?_, ?_, ?_, ?_⟩
  · simp [Order.recalculate_totals, upsertCustomer_order_items,
      upsertCustomer_orders, hfilter]
  · simp [Order.recalculate_totals, upsertCustomer_order_items,
      upsertCustomer_orders, hfilter, h0]
  · simp [Order.recalculate_totals, upsertCustomer_order_items,
      upsertCustomer_orders, hfilter, h0]
  · simp [upsertCustomer_order_items]
  · simp [upsertCustomer_orders]

/-- C6 witness: the amended statement at a concrete empty-items call
with fee 99. -/
theorem claim_C6_witness :
    ∃ db' o, placeOrder dbEmpty cdEve [] "" 99 "DDDDDDDDDD" 2 =
        (db', Except.ok o) ∧
      o.subtotal_cents = 0 ∧ o.tax_cents = 0 ∧ o.total_cents = 99 ∧
      db'.order_items = dbEmpty.order_items ∧ db'.orders = o :: dbEmpty.orders :=
  claim_C6_amended dbEmpty cdEve "" 99 "DDDDDDDDDD" 2 cdEve (by rfl)
    (by decide) (by decide)

/-! ## Merge lemmas for the customer upsert -/

/-- The three sequential overwrite `if`s of serializers.py lines
168-175, summarised field by field. -/
theorem mergeCustomer_spec (c0 : Customer) (cd : List (String × String)) :
    mergeCustomer c0 cd =
      { c0 with
        full_name :=
          if dictGetD cd "full_name" ≠ "" ∧ c0.full_name ≠ dictGetD cd "full_name"
          then dictGetD cd "full_name" else c0.full_name
        phone :=
          if (dictGet cd "phone").isSome ∧ c0.phone ≠ dictGetD cd "phone"
          then dictGetD cd "phone" else c0.phone
        default_address :=
          if (dictGet cd "address").isSome ∧ c0.default_address ≠ dictGetD cd "address"
          then dictGetD cd "address" else c0.default_address } := by
  obtain ⟨i, em, fn, ph, ad, ac⟩ := c0
  unfold mergeCustomer
  dsimp only
  split_ifs <;> rfl

theorem mergeCustomer_id (c0 : Customer) (cd : List (String × String)) :
    (mergeCustomer c0 cd).id = c0.id := by
  rw [mergeCustomer_spec]

theorem mergeCustomer_email (c0 : Customer) (cd : List (String × String)) :
    (mergeCustomer c0 cd).email = c0.email := by
  rw [mergeCustomer_spec]

theorem mergeCustomer_full_name (c0 : Customer) (cd : List (String × String)) :
    (mergeCustomer c0 cd).full_name = c0.full_name ∨
      (dictGetD cd "full_name" ≠ "" ∧ c0.full_name ≠ dictGetD cd "full_name" ∧
        (mergeCustomer c0 cd).full_name = dictGetD cd "full_name") := by
  rw [mergeCustomer_spec]
  by_cases h : dictGetD cd "full_name" ≠ "" ∧ c0.full_name ≠ dictGetD cd "full_name"
  · exact Or.inr ⟨h.1, h.2, by dsimp only; rw [if_pos h]⟩
  · exact Or.inl (by dsimp only; rw [if_neg h])

theorem mergeCustomer_phone (c0 : Customer) (cd : List (String × String)) :
    (mergeCustomer c0 cd).phone = c0.phone ∨
      ((dictGet cd "phone").isSome ∧ c0.phone ≠ dictGetD cd "phone" ∧
        (mergeCustomer c0 cd).phone = dictGetD cd "phone") := by
  rw [mergeCustomer_spec]
  by_cases h : (dictGet cd "phone").isSome ∧ c0.phone ≠ dictGetD cd "phone"
  · exact Or.inr ⟨h.1, h.2, by dsimp only; rw [if_pos h]⟩
  · exact Or.inl (by dsimp only; rw [if_neg h])

theorem mergeCustomer_address (c0 : Customer) (cd : List (String × String)) :
    (mergeCustomer c0 cd).default_address = c0.default_address ∨
      ((dictGet cd "address").isSome ∧
        c0.default_address ≠ dictGetD cd "address" ∧
        (mergeCustomer c0 cd).default_address = dictGetD cd "address") := by
  rw [mergeCustomer_spec]
  by_cases h : (dictGet cd "address").isSome ∧ c0.default_address ≠ dictGetD cd "address"
  · exact Or.inr ⟨h.1, h.2, by dsimp only; rw [if_pos h]⟩
  · exact Or.inl (by dsimp only; rw [if_neg h])

theorem dictGet_mem (cd : List (String × String)) (k v : String)
    (h : dictGet cd k = some v) : ∃ p ∈ cd, p.2 = v := by
  unfold dictGet at h
  rcases hf : cd.find? (fun p => p.1 == k) with _ | p
  · rw [hf] at h; cases h
  · rw [hf] at h
    exact ⟨p, List.mem_of_find?_eq_some hf, by simpa using h⟩

/-- A placeOrder call that fails validation leaves the store untouched. -/
theorem placeOrder_db_invalid (db : DB) (cd : List (String × String))
    (items : List LineReq) (special : String) (fee : ℕ) (gen : String) (now : ℕ)
    (h : validateCustomer cd = none ∨ validateItems db items = none) :
    (placeOrder db cd items special fee gen now).1 = db := by
  unfold placeOrder
  rcases h with h | h
  · rw [h]
  · rcases hv : validateCustomer cd with _ | cdV <;> rw [h]

/-- After a placeOrder call that passes validation, the customers table
is exactly what the pre-transaction upsert left. -/
theorem placeOrder_customers_valid (db : DB) (cd : List (String × String))
    (items : List LineReq) (special : String) (fee : ℕ) (gen : String) (now : ℕ)
    (cdV : List (String × String)) (vl : List VLine)
    (hc : validateCustomer cd = some cdV) (hi : validateItems db items = some vl) :
    (placeOrder db cd items special fee gen now).1.customers =
      ((upsertCustomer db cdV).1).customers := by
  unfold placeOrder
  rw [hc, hi]
  simp only []
  split
  · rfl
  · split <;> rfl

/-- C9: a placeOrder call whose (validated) customer email exactly
matches a stored Customer creates no duplicate row, and the stored full
name, phone and address are overwritten only when the caller supplied a
non-empty value that differs from the stored one. -/
theorem claim_C9 (db : DB) (cd : List (String × String)) (items : List LineReq)
    (special : String) (fee : ℕ) (gen : String) (now : ℕ) (c0 : Customer)
    (hfind : db.customers.find?
        (fun c => c.email == dictGetD (trimDict cd) "email") = some c0) :
    (placeOrder db cd items special fee gen now).1.customers.length =
        db.customers.length ∧
    ∀ c' ∈ (placeOrder db cd items special fee gen now).1.customers,
      ∃ c ∈ db.customers, c'.id = c.id ∧ c'.email = c.email ∧
        (c'.full_name = c.full_name ∨
          (dictGetD (trimDict cd) "full_name" ≠ "" ∧
            c.full_name ≠ dictGetD (trimDict cd) "full_name" ∧
            c'.full_name = dictGetD (trimDict cd) "full_name")) ∧
        (c'.phone = c.phone ∨
          (dictGetD (trimDict cd) "phone" ≠ "" ∧
            c.phone ≠ dictGetD (trimDict cd) "phone" ∧
            c'.phone = dictGetD (trimDict cd) "phone")) ∧
        (c'.default_address = c.default_address ∨
          (dictGetD (trimDict cd) "address" ≠ "" ∧
            c.default_address ≠ dictGetD (trimDict cd) "address" ∧
            c'.default_address = dictGetD (trimDict cd) "address")) := by
  rcases hv : validateCustomer cd with _ | cdV
  · have hdb := placeOrder_db_invalid db cd items special fee gen now (Or.inl hv)
    rw [hdb]
    exact ⟨rfl, fun c' hc' =>
      ⟨c', hc', rfl, rfl, Or.inl rfl, Or.inl rfl, Or.inl rfl⟩⟩
  · rcases hi : validateItems db items with _ | vl
    · have hdb := placeOrder_db_invalid db cd items special fee gen now (Or.inr hi)
      rw [hdb]
      exact ⟨rfl, fun c' hc' =>
        ⟨c', hc', rfl, rfl, Or.inl rfl, Or.inl rfl, Or.inl rfl⟩⟩
    · obtain rfl := validateCustomer_eq_trim cd cdV hv
      have hcust :=
        placeOrder_customers_valid db cd items special fee gen now _ _ hv hi
      rw [hcust]
      unfold upsertCustomer
      rw [hfind]
      simp only []
      constructor
      · exact List.length_map _ _
      · intro c' hc'
        obtain ⟨c, hcm, hfc⟩ := List.mem_map.mp hc'
        by_cases hid : c.id = c0.id
        · rw [if_pos hid] at hfc
          have hnb := validateCustomer_no_blank cd (trimDict cd) hv
          refine ⟨c0, List.mem_of_find?_eq_some hfind, ?_, ?_, ?_, ?_, ?_⟩
          · rw [← hfc, mergeCustomer_id]
          · rw [← hfc, mergeCustomer_email]
          · rcases mergeCustomer_full_name c0 (trimDict cd) with h | ⟨h1, h2, h3⟩
            · exact Or.inl (by rw [← hfc, h])
            · exact Or.inr ⟨h1, h2, by rw [← hfc, h3]⟩
          · rcases mergeCustomer_phone c0 (trimDict cd) with h | ⟨hsome, hne, hval⟩
            · exact Or.inl (by rw [← hfc, h])
            · refine Or.inr ⟨?_, hne, by rw [← hfc, hval]⟩
              obtain ⟨v, hvv⟩ := Option.isSome_iff_exists.mp hsome
              have hgd : dictGetD (trimDict cd) "phone" = v := by
                unfold dictGetD; rw [hvv]; rfl
              obtain ⟨p, hp, hpv⟩ := dictGet_mem (trimDict cd) "phone" v hvv
              rw [hgd, ← hpv]
              exact hnb p hp
          · rcases mergeCustomer_address c0 (trimDict cd) with h | ⟨hsome, hne, hval⟩
            · exact Or.inl (by rw [← hfc, h])
            · refine Or.inr ⟨?_, hne, by rw [← hfc, hval]⟩
              obtain ⟨v, hvv⟩ := Option.isSome_iff_exists.mp hsome
              have hgd : dictGetD (trimDict cd) "address" = v := by
                unfold dictGetD; rw [hvv]; rfl
              obtain ⟨p, hp, hpv⟩ := dictGet_mem (trimDict cd) "address" v hvv
              rw [hgd, ← hpv]
              exact hnb p hp
        · rw [if_neg hid] at hfc
          exact ⟨c, hcm, by rw [← hfc], by rw [← hfc], Or.inl (by rw [← hfc]),
            Or.inl (by rw [← hfc]), Or.inl (by rw [← hfc])⟩

/-- Carol, already on file for the C9 witness. -/
def c9 : Customer :=
  { id := 1, email := "carol@example.com", full_name := "Old Name",
    phone := "123", default_address := "Old Street 1", is_active := true }

/-- The store holding Carol. -/
def db9 : DB :=
  { customers := [c9], menu_items := [], orders := [], order_items := [],
    payments := [], events := [] }

/-- A payload reusing Carol's email with a new full name. -/
def cd9 : List (String × String) :=
  [("email", "carol@example.com"), ("full_name", "New Name")]

/-- C9 witness: re-ordering under Carol's email with a new name keeps
one Customer row and only permissible overwrites. -/
theorem claim_C9_witness :
    (placeOrder db9 cd9 [] "" 0 "JJJJJJJJJJ" 0).1.customers.length =
        db9.customers.length ∧
    ∀ c' ∈ (placeOrder db9 cd9 [] "" 0 "JJJJJJJJJJ" 0).1.customers,
      ∃ c ∈ db9.customers, c'.id = c.id ∧ c'.email = c.email ∧
        (c'.full_name = c.full_name ∨
          (dictGetD (trimDict cd9) "full_name" ≠ "" ∧
            c.full_name ≠ dictGetD (trimDict cd9) "full_name" ∧
            c'.full_name = dictGetD (trimDict cd9) "full_name")) ∧
        (c'.phone = c.phone ∨
          (dictGetD (trimDict cd9) "phone" ≠ "" ∧
            c.phone ≠ dictGetD (trimDict cd9) "phone" ∧
            c'.phone = dictGetD (trimDict cd9) "phone")) ∧
        (c'.default_address = c.default_address ∨
          (dictGetD (trimDict cd9) "address" ≠ "" ∧
            c.default_address ≠ dictGetD (trimDict cd9) "address" ∧
            c'.default_address = dictGetD (trimDict cd9) "address")) :=
  claim_C9 db9 cd9 [] "" 0 "JJJJJJJJJJ" 0 c9 (by rfl)

end FoodOrder
